import Mathlib

/-!
# Project catalog page (`script.js`)

A shallow embedding of the catalog script: the repository descriptors returned
by the listing endpoint, the normalised `Project` records, the page state
(`allProjects`, `filteredProjects`, `currentFilter` and the DOM slots the script
writes), and the functions `loadProjects`, `updateStats`, `applyFilter`,
`renderProjects`, `getLanguageColor`, `formatDate` and `escapeHtml`.

Modelling conventions.
* A JavaScript number with an integer value (a star count, a millisecond time
  value, an HTTP status code) is a `Nat` or an `Int` that holds the value of the
  double.  The arithmetic of the script on them is the arithmetic of doubles:
  `roundDouble`, `subDouble`, `addDouble` and `floorDiv` round to nearest, ties
  to even, and `numberToString` prints as `Number::toString` does.  An array
  length and a status code are printed as decimal numerals, which they are
  (an array length is below `2 ^ 32`, a status code below `2 ^ 16`).
* A `Date` is its millisecond time value; a value beyond 8.64e15 in magnitude
  stands for the invalid date, whose time value is `NaN`.  The clock read by
  `new Date()` in `formatDate` is the explicit argument `now`.
* A nullable JSON string is `Option String`; `a || b` on it takes `b` for
  `null` and for the empty string, the two falsy values a string slot can hold.
* Template literals are string concatenations of their literal pieces and the
  interpolated values, whitespace included.
* The asynchronous `loadProjects` is the composition of what it does before the
  `await` and what it does with the outcome of the request.
* A string is its sequence of Unicode characters.  The field `updated_at` holds
  the time value `new Date` reads from the descriptor's timestamp text.
* `escapeHtml` goes through the DOM (`textContent`, then `innerHTML`); the
  serialisation of a text node is modelled after the HTML standard.
-/

namespace Catalog
open List

/-! ## Data model -/

/-- A repository descriptor of the listing endpoint (the fields the script reads). -/
structure Repo where
  name : String
  full_name : String
  description : Option String
  html_url : String
  stargazers_count : Nat
  forks_count : Nat
  language : Option String
  updated_at : Int
  topics : Option (List String)
  private_ : Bool
  deriving DecidableEq, Repr

/-- The record `loadProjects` builds for one descriptor. -/
structure Project where
  name : String
  fullName : String
  description : String
  url : String
  stars : Nat
  forks : Nat
  language : String
  updated : Int
  topics : List String
  isPrivate : Bool
  deriving DecidableEq, Repr

/-- The module state together with the DOM slots the script writes:
`loadingShown` is the `show` class of `#loading`, `projectsGrid` the `innerHTML`
of `#projects-grid`, and the three counters the `textContent` of `#repo-count`,
`#star-count` and `#language-count`. -/
structure Page where
  allProjects : List Project
  filteredProjects : List Project
  currentFilter : String
  loadingShown : Bool
  projectsGrid : String
  repoCount : String
  starCount : String
  languageCount : String
  deriving DecidableEq, Repr

/-- The outcome of `fetch` followed by `response.json()`: the request promise
rejects with a message, or a response arrives with a status code and a body
that parses to a list of descriptors or makes the parse throw a message. -/
inductive FetchOutcome where
  | rejected (message : String)
  | response (status : Nat) (body : Except String (List Repo))

/-- The value of a property read or of an `||` expression, as far as the script
can produce one in `getLanguageColor`: `undefined`, a string, or a member
inherited from `Object.prototype`. -/
inductive JSValue where
  | undefined
  | str (s : String)
  | inherited (name : String)
  deriving DecidableEq, Repr

/-! ## JavaScript primitives used by the script -/

/-- The operator `a || b` on a nullable string: `a` when truthy, else `b`. -/
def orElse (a : Option String) (b : String) : String :=
  match a with
  | none => b
  | some s => if s = "" then b else s

/-- The operator `a || []` on a nullable array (every array is truthy). -/
def orEmpty (a : Option (List String)) : List String :=
  match a with
  | none => []
  | some l => l

/-- Truthiness of a value: `undefined` and the empty string are falsy. -/
def JSValue.truthy : JSValue → Bool
  | .undefined => false
  | .str s => s != ""
  | .inherited _ => true

/-- The own string-keyed members of `Object.prototype`, which every object
literal inherits. -/
def objectPrototypeKeys : List String :=
  ["constructor", "__proto__", "hasOwnProperty", "isPrototypeOf",
   "propertyIsEnumerable", "toLocaleString", "toString", "valueOf",
   "__defineGetter__", "__defineSetter__", "__lookupGetter__", "__lookupSetter__"]

/-- The property read `obj[key]` on an object literal with string values: an own
property first, then the prototype chain, else `undefined`. -/
def getProperty (obj : List (String × String)) (key : String) : JSValue :=
  match obj.lookup key with
  | some v => .str v
  | none => if key ∈ objectPrototypeKeys then .inherited key else .undefined

/-- The text a template literal inserts for a value.  An inherited member is a
built-in function, printed in the native-function form, except `__proto__`,
which is the prototype object itself. -/
def JSValue.toText : JSValue → String
  | .undefined => "undefined"
  | .str s => s
  | .inherited name =>
    if name = "__proto__" then "[object Object]"
    else if name = "constructor" then "function Object() \x7b [native code] \x7d"
    else "function " ++ name ++ "() \x7b [native code] \x7d"

/-! ### Numbers -/

/-- The quotient `a / c` rounded to the nearest integer, a tie going to the
even neighbour (`c` positive). -/
def roundHalfEven (a c : Nat) : Nat :=
  let q := a / c
  let r := a % c
  if 2 * r < c then q
  else if c < 2 * r then q + 1
  else if q % 2 = 0 then q else q + 1

/-- The position of the leading bit of `n` within a step budget. -/
def leadingBitFuel : Nat → Nat → Nat
  | 0, _ => 0
  | fuel + 1, n => if 2 ≤ n then leadingBitFuel fuel (n / 2) + 1 else 0

/-- The position of the leading bit of a positive `n`: the greatest `k` with
`2 ^ k ≤ n`. -/
def leadingBit (n : Nat) : Nat :=
  leadingBitFuel n n

/-- The value of the double nearest to the integer `n` (round to nearest, ties
to even).  Every integer below `2 ^ 53` is a double; above, a double keeps the
53 leading bits. -/
def roundDouble (n : Nat) : Nat :=
  if n < 2 ^ 53 then n
  else
    let e := leadingBit n - 52
    roundHalfEven n (2 ^ e) * 2 ^ e

/-- Whether `2 ^ d ≤ n / b`, in integers. -/
def powLeQuotient (d : Int) (n b : Nat) : Bool :=
  if 0 ≤ d then decide (b * 2 ^ d.toNat ≤ n) else decide (b ≤ n * 2 ^ (-d).toNat)

/-- The binary exponent of the quotient `n / b` of positive integers: the
greatest `d` with `2 ^ d ≤ n / b`. -/
def quotientExponent (n b : Nat) : Int :=
  let d : Int := (leadingBit n : Int) - (leadingBit b : Int)
  if powLeQuotient d n b then d else d - 1

/-- The double nearest to the quotient `n / b` of positive integers, as a
mantissa `m` and an exponent `e`: its value is `m * 2 ^ e`, with `m` the
quotient scaled into 53 bits and rounded to nearest, ties to even. -/
def divDouble (n b : Nat) : Nat × Int :=
  let e := quotientExponent n b - 52
  let m := if 0 ≤ e then roundHalfEven n (b * 2 ^ e.toNat)
           else roundHalfEven (n * 2 ^ (-e).toNat) b
  (m, e)

/-- The value of `Math.floor(n / b)` for doubles with the non-negative integer
value `n` and the positive integer value `b`. -/
def floorDivDouble (n b : Nat) : Nat :=
  if n = 0 then 0
  else
    let me := divDouble n b
    if 0 ≤ me.2 then me.1 * 2 ^ me.2.toNat else me.1 / 2 ^ (-me.2).toNat

/-- The value of `Math.ceil(n / b)` on the same arguments. -/
def ceilDivDouble (n b : Nat) : Nat :=
  if n = 0 then 0
  else
    let me := divDouble n b
    if 0 ≤ me.2 then me.1 * 2 ^ me.2.toNat
    else (me.1 + 2 ^ (-me.2).toNat - 1) / 2 ^ (-me.2).toNat

/-- The value of `a - b` on doubles with integer values. -/
def subDouble (a b : Int) : Int :=
  if 0 ≤ a - b then (roundDouble (a - b).toNat : Int) else -(roundDouble (b - a).toNat : Int)

/-- The value of `Math.floor(n / b)` for a double with the integer value `n`
and a positive integer constant `b`. -/
def floorDiv (n : Int) (b : Nat) : Int :=
  if 0 ≤ n then (floorDivDouble n.toNat b : Int) else -(ceilDivDouble (-n).toNat b : Int)

/-- The decimal value that `Number::toString` prints for a double with the
integer value `v`: the shortest decimal that reads back as `v`, the nearest
one to `v` among those of that length, the even one on a tie. -/
def shortestDecimal (v : Nat) : Nat :=
  let len := (Nat.toDigits 10 v).length
  ((List.range 17).findSome? (fun i =>
    let unit := 10 ^ (len - (i + 1))
    let lo := v / unit * unit
    let hi := lo + unit
    if roundDouble lo = v ∧ roundDouble hi = v then
      if v - lo < hi - v then some lo
      else if hi - v < v - lo then some hi
      else if (v / unit) % 2 = 0 then some lo else some hi
    else if roundDouble lo = v then some lo
    else if roundDouble hi = v then some hi
    else none)).getD v

/-- Removal of the trailing zeros of a numeral. -/
def dropTrailingZeros (ds : List Char) : List Char :=
  (ds.reverse.dropWhile (fun c => c = '0')).reverse

/-- The exponent form `d.ddde+x` of `Number::toString`, for values from
`10 ^ 21` on. -/
def exponentForm (v : Nat) : String :=
  let ds := Nat.toDigits 10 (shortestDecimal v)
  let x := toString (ds.length - 1)
  match dropTrailingZeros ds with
  | [] => "0"
  | [d] => String.mk [d] ++ "e+" ++ x
  | d :: rest => String.mk (d :: '.' :: rest) ++ "e+" ++ x

/-- The text `Number::toString` gives a double with the non-negative integer
value `n`: the decimal numeral below `10 ^ 21`, the exponent form from there. -/
def numberToString (n : Nat) : String :=
  if n < 10 ^ 21 then toString n else exponentForm n

/-- A non-negative number that a sum of doubles with non-negative integer values
takes: a double with an integer value, or `Infinity`. -/
inductive JSNumber where
  | finite (n : Nat)
  | infinity
  deriving DecidableEq, Repr

/-- The value of `sum + x` on doubles: the exact sum rounded to the nearest
double, `Infinity` when that leaves the exponent range, from `2 ^ 1024` on. -/
def addDouble (sum : JSNumber) (x : Nat) : JSNumber :=
  match sum with
  | .infinity => .infinity
  | .finite a =>
    if leadingBit (roundDouble (a + x)) < 1024 then .finite (roundDouble (a + x)) else .infinity

/-- The text `Number::toString` gives a sum. -/
def JSNumber.toText : JSNumber → String
  | .finite n => numberToString n
  | .infinity => "Infinity"

/-- Whether a time value is one a `Date` can hold (`TimeClip`). -/
def validTime (t : Int) : Bool :=
  decide (t.natAbs ≤ 8640000000000000)

/-! ### Sets and text nodes -/

/-- The constructor `new Set(iterable)`: the distinct values in first-occurrence
order. -/
def newSet (xs : List String) : List String :=
  xs.foldl (fun set x => if x ∈ set then set else set ++ [x]) []

/-- The text of one character in the serialisation of a text node (the
"escaping a string" step of HTML fragment serialisation outside attribute
mode): `&`, no-break space, `<` and `>` become entities, everything else,
quotation marks included, is emitted as is. -/
def escapeChar (c : Char) : List Char :=
  if c = '&' then ['&', 'a', 'm', 'p', ';']
  else if c = Char.ofNat 160 then ['&', 'n', 'b', 's', 'p', ';']
  else if c = '<' then ['&', 'l', 't', ';']
  else if c = '>' then ['&', 'g', 't', ';']
  else [c]

/-- Serialisation of the characters of a text node. -/
def escapeChars : List Char → List Char
  | [] => []
  | c :: cs => escapeChar c ++ escapeChars cs

/-! ## Helpers of the script -/

/-- The function `escapeHtml(text)`: a detached `div` gets `text` as its
`textContent` and its `innerHTML` is returned, which is the serialisation of
the single text node (or the empty string for empty `text`). -/
def escapeHtml (text : String) : String :=
  ⟨escapeChars text.data⟩

/-- The table `colors` of `getLanguageColor`. -/
def colors : List (String × String) :=
  [("Python", "#3572A5"), ("JavaScript", "#F7DF1E"), ("TypeScript", "#3178C6"),
   ("HTML", "#E34C26"), ("CSS", "#1572B6"), ("Java", "#ED8B00"),
   ("C++", "#00599C"), ("C", "#A8B9CC"), ("C#", "#239120"), ("PHP", "#777BB4"),
   ("Ruby", "#CC342D"), ("Go", "#00ADD8"), ("Rust", "#000000"),
   ("Swift", "#FA7343"), ("Kotlin", "#7F52FF"), ("Other", "#00d4ff")]

/-- The function `getLanguageColor(language)`:
`colors[language] || colors['Other']`. -/
def getLanguageColor (language : String) : JSValue :=
  let c := getProperty colors language
  if c.truthy then c else getProperty colors "Other"

/-- The function `formatDate(date)`, with the clock reading `now`.  With an
invalid date `diff` and `days` are `NaN`, every comparison fails and the last
`return` prints `NaN`.  Otherwise `days` is an integer below `10 ^ 21` in
magnitude, which prints as its decimal numeral. -/
def formatDate (now date : Int) : String :=
  if validTime now && validTime date then
    let diff := subDouble now date
    let days := floorDiv diff (1000 * 60 * 60 * 24)
    if days = 0 then "today"
    else if days = 1 then "yesterday"
    else if days < 7 then toString days ++ " days ago"
    else if days < 30 then toString (floorDiv days 7) ++ " weeks ago"
    else if days < 365 then toString (floorDiv days 30) ++ " months ago"
    else toString (floorDiv days 365) ++ " years ago"
  else "NaN years ago"

/-! ## Markup -/

/-- The markup `loadProjects` writes in its `catch` block. -/
def errorPlaceholder (message : String) : String :=
  "\n" ++
  "            <div class=\"empty-state\">\n" ++
  "                <i class=\"fas fa-exclamation-triangle\"></i>\n" ++
  "                <h3>Error Loading Projects</h3>\n" ++
  "                <p>" ++ message ++ "</p>\n" ++
  "                <p style=\"margin-top: 1rem;\">Please check your internet connection and try again.</p>\n" ++
  "            </div>\n" ++
  "        "

/-- The markup `renderProjects` writes for an empty `filteredProjects`. -/
def noProjectsPlaceholder : String :=
  "\n" ++
  "            <div class=\"empty-state\">\n" ++
  "                <i class=\"fas fa-folder-open\"></i>\n" ++
  "                <h3>No Projects Found</h3>\n" ++
  "                <p>No projects match the selected filter.</p>\n" ++
  "            </div>\n" ++
  "        "

/-- The pieces of one card in template order: `Sum.inl` is literal text of the
template, `Sum.inr` the text of an interpolated expression. -/
def cardPieces (now : Int) (project : Project) : List (String ⊕ String) :=
  [ .inl ("\n" ++
      "        <div class=\"project-card\" onclick=\"window.open(\x27"),
    .inr project.url,
    .inl ("\x27, \x27_blank\x27)\">\n" ++
      "            <div class=\"project-header\">\n" ++
      "                <div>\n" ++
      "                    <h3 class=\"project-name\">\n" ++
      "                        <a href=\""),
    .inr project.url,
    .inl ("\" target=\"_blank\" onclick=\"event.stopPropagation()\">\n" ++
      "                            "),
    .inr (escapeHtml project.name),
    .inl ("\n" ++
      "                        </a>\n" ++
      "                    </h3>\n" ++
      "                    <div class=\"project-stats\">\n" ++
      "                        <span><i class=\"fas fa-star\"></i> "),
    .inr (numberToString project.stars),
    .inl ("</span>\n" ++
      "                        <span><i class=\"fas fa-code-branch\"></i> "),
    .inr (numberToString project.forks),
    .inl ("</span>\n" ++
      "                    </div>\n" ++
      "                </div>\n" ++
      "            </div>\n" ++
      "            <p class=\"project-description\">"),
    .inr (escapeHtml project.description),
    .inl ("</p>\n" ++
      "            <div class=\"project-footer\">\n" ++
      "                <div class=\"project-language\">\n" ++
      "                    <span class=\"language-dot\" style=\"background-color: "),
    .inr (getLanguageColor project.language).toText,
    .inl ("\"></span>\n" ++
      "                    <span>"),
    .inr project.language,
    .inl ("</span>\n" ++
      "                </div>\n" ++
      "                <div class=\"project-date\">\n" ++
      "                    Updated "),
    .inr (formatDate now project.updated),
    .inl ("\n" ++
      "                </div>\n" ++
      "            </div>\n" ++
      "        </div>\n" ++
      "    ") ]

/-- The text of a template piece. -/
def pieceText : String ⊕ String → String
  | .inl s => s
  | .inr s => s

/-- The card markup of one project: the template literal mapped over
`filteredProjects` in `renderProjects`. -/
def projectCard (now : Int) (project : Project) : String :=
  String.join ((cardPieces now project).map pieceText)

/-! ## State-changing functions -/

/-- The record built by the `repos.map` callback of `loadProjects`. -/
def toProject (repo : Repo) : Project :=
  { name := repo.name
    fullName := repo.full_name
    description := orElse repo.description "No description available"
    url := repo.html_url
    stars := repo.stargazers_count
    forks := repo.forks_count
    language := orElse repo.language "Other"
    updated := repo.updated_at
    topics := orEmpty repo.topics
    isPrivate := repo.private_ }

/-- The constant `totalStars` of `updateStats`. -/
def totalStars (projects : List Project) : JSNumber :=
  projects.foldl (fun sum p => addDouble sum p.stars) (.finite 0)

/-- The constant `languages` of `updateStats`. -/
def languages (projects : List Project) : List String :=
  newSet ((projects.map (fun p => p.language)).filter (fun l => l != ""))

/-- The function `updateStats()`. -/
def updateStats (st : Page) : Page :=
  { st with
    repoCount := toString st.allProjects.length
    starCount := (totalStars st.allProjects).toText
    languageCount := toString (languages st.allProjects).length }

/-- The function `renderProjects()`. -/
def renderProjects (now : Int) (st : Page) : Page :=
  if st.filteredProjects.length = 0 then
    { st with projectsGrid := noProjectsPlaceholder }
  else
    { st with projectsGrid := String.join (st.filteredProjects.map (projectCard now)) }

/-- The function `applyFilter()`. -/
def applyFilter (now : Int) (st : Page) : Page :=
  let st1 :=
    if st.currentFilter = "all" then
      { st with filteredProjects := st.allProjects }
    else
      { st with filteredProjects :=
          st.allProjects.filter (fun p => p.language = st.currentFilter) }
  renderProjects now st1

/-- The click handler `setupFilters` installs on a filter button whose
`data-filter` is `category` (the `active` classes of the buttons are not part
of `Page`). -/
def clickFilter (now : Int) (category : String) (st : Page) : Page :=
  applyFilter now { st with currentFilter := category }

/-- The property `response.ok`: the status is in the range 200 to 299. -/
def responseOk (status : Nat) : Bool :=
  decide (200 ≤ status) && decide (status ≤ 299)

/-- The `try` block of `loadProjects` from the arrival of the outcome on: the
final state, or the message of the error that was thrown.  Every `throw`
precedes the first assignment of the block. -/
def loadBody (now : Int) (outcome : FetchOutcome) (st : Page) : Except String Page :=
  match outcome with
  | .rejected message => .error message
  | .response status body =>
    if !responseOk status then
      .error ("GitHub API error: " ++ toString status)
    else
      match body with
      | .error message => .error message
      | .ok repos =>
        let st1 := { st with allProjects := repos.map toProject }
        let st2 := { st1 with allProjects := st1.allProjects.filter (fun p => !p.isPrivate) }
        let st3 := updateStats st2
        let st4 := applyFilter now st3
        .ok { st4 with loadingShown := false }

/-- The function `loadProjects()`, run to completion on the outcome of its
request. -/
def loadProjects (now : Int) (outcome : FetchOutcome) (st : Page) : Page :=
  let st0 := { st with loadingShown := true, projectsGrid := "" }
  match loadBody now outcome st0 with
  | .ok st1 => st1
  | .error message =>
    { st0 with loadingShown := false, projectsGrid := errorPlaceholder message }

/-- The module state at start-up, over the initial content of the written DOM
slots. -/
def initialPage (grid repoCount starCount languageCount : String) : Page :=
  { allProjects := []
    filteredProjects := []
    currentFilter := "all"
    loadingShown := false
    projectsGrid := grid
    repoCount := repoCount
    starCount := starCount
    languageCount := languageCount }


/-! ## Example data -/

/-- A project with the given star count and language; the other fields are fixed. -/
def sampleProject (stars : Nat) (language : String) : Project :=
  { name := "demo", fullName := "octocat/demo", description := "A demo",
    url := "https://example.org/demo", stars := stars, forks := 0,
    language := language, updated := 0, topics := [], isPrivate := false }

/-- The page state around a project list and a selected category. -/
def pageOf (projects : List Project) (category : String) : Page :=
  { initialPage "" "" "" "" with allProjects := projects, currentFilter := category }

/-- A public descriptor with a language and a description. -/
def publicRepo : Repo :=
  { name := "demo", full_name := "octocat/demo", description := some "A demo",
    html_url := "https://example.org/demo", stargazers_count := 3, forks_count := 1,
    language := some "Go", updated_at := 0, topics := some ["cli"], private_ := false }

/-- A descriptor flagged private. -/
def privateRepo : Repo :=
  { publicRepo with name := "secret", full_name := "octocat/secret", private_ := true }

/-- A descriptor whose language is `null` and whose description is present but
empty. -/
def bareRepo : Repo :=
  { publicRepo with name := "bare", full_name := "octocat/bare",
                    description := some "", language := none }

/-- A project whose name needs escaping, updated on day 19743 of the epoch. -/
def showcaseProject : Project :=
  { sampleProject 1234 "Rust" with name := "a<b>&c", forks := 5, updated := 19743 * 86400000 }

/-- A project whose language and link carry markup. -/
def markupProject : Project :=
  { sampleProject 0 "<img src=x onerror=alert(1)>" with url := "\x27);alert(1);(\x27" }

/-! ## Reading of escaped text -/

/-- The text after the ampersand of each entity that `escapeChar` emits. -/
def entityTails : List (List Char) :=
  [['a', 'm', 'p', ';'], ['n', 'b', 's', 'p', ';'], ['l', 't', ';'], ['g', 't', ';']]

/-- The entities a reader of the markup decodes, each with its character:
`&amp;`, `&lt;`, `&gt;`, `&quot;`, `&#39;` and `&nbsp;`. -/
def entityTable : List (List Char × Char) :=
  [(['&', 'a', 'm', 'p', ';'], '&'), (['&', 'l', 't', ';'], '<'), (['&', 'g', 't', ';'], '>'),
   (['&', 'q', 'u', 'o', 't', ';'], '"'), (['&', '#', '3', '9', ';'], Char.ofNat 39),
   (['&', 'n', 'b', 's', 'p', ';'], Char.ofNat 160)]

/-- The entity at the head of a text, with its character and the text after it. -/
def readEntity (l : List Char) : Option (Char × List Char) :=
  entityTable.findSome? (fun e => if e.1 <+: l then some (e.2, l.drop e.1.length) else none)

/-- Decoding from left to right with a step budget: an entity gives its
character, any other character stands for itself. -/
def decodeFuel : Nat → List Char → List Char
  | 0, _ => []
  | _ + 1, [] => []
  | fuel + 1, c :: rest =>
    match readEntity (c :: rest) with
    | some (d, r) => d :: decodeFuel fuel r
    | none => c :: decodeFuel fuel rest

/-- Decoding of the entities in a serialised text.  Every step consumes a
character, so the length of the text is budget enough. -/
def decodeEntities (l : List Char) : List Char :=
  decodeFuel l.length l

/-! ## Lemmas on the primitives -/

theorem leadingBitFuel_eq_log2 (fuel n : Nat) (h : n ≤ fuel) :
    leadingBitFuel fuel n = Nat.log2 n := by
  induction fuel generalizing n with
  | zero =>
    have : n = 0 := by omega
    subst this
    rw [Nat.log2]; simp [leadingBitFuel]
  | succ f ih =>
    rw [Nat.log2]
    simp only [leadingBitFuel]
    by_cases h2 : 2 ≤ n
    · have : n / 2 ≤ f := by omega
      simp [h2, ih _ this]
    · simp [h2]

theorem leadingBit_eq_log2 (n : Nat) : leadingBit n = Nat.log2 n :=
  leadingBitFuel_eq_log2 n n (Nat.le_refl n)

theorem leadingBit_lt (n k : Nat) (h : n < 2 ^ k) (hk : 0 < k) : leadingBit n < k := by
  rw [leadingBit_eq_log2]
  by_cases hn : n = 0
  · subst hn
    rw [Nat.log2]; simpa using hk
  · exact (Nat.log2_lt hn).2 h

theorem roundHalfEven_ge (a c : Nat) : a / c ≤ roundHalfEven a c := by
  unfold roundHalfEven
  simp only
  split_ifs <;> omega

theorem roundHalfEven_le (a c : Nat) (hc : 0 < c) :
    2 * (c * roundHalfEven a c) ≤ 2 * a + c := by
  have h := Nat.div_add_mod a c
  have hm := Nat.mod_lt a hc
  have hs : c * (a / c + 1) = c * (a / c) + c := by ring
  unfold roundHalfEven
  simp only
  split_ifs with h1 h2 h3
  · omega
  · rw [hs]; omega
  · omega
  · rw [hs]; omega

theorem quotientExponent_lt (n b : Nat) (hn : n ≠ 0) (k : Nat)
    (h : n < 2 ^ k * b) : quotientExponent n b < (k : Int) := by
  have h1 : n < 2 ^ (k + (b.log2 + 1)) := by
    have : b < 2 ^ (b.log2 + 1) := Nat.lt_log2_self
    calc n < 2 ^ k * b := h
      _ ≤ 2 ^ k * 2 ^ (b.log2 + 1) := Nat.mul_le_mul_left _ (Nat.le_of_lt this)
      _ = 2 ^ (k + (b.log2 + 1)) := (Nat.pow_add 2 k (b.log2 + 1)).symm
  have h2 : n.log2 < k + (b.log2 + 1) := (Nat.log2_lt hn).2 h1
  unfold quotientExponent
  simp only [leadingBit_eq_log2]
  split_ifs with ht
  · by_contra hcon
    have hd : ((n.log2 : Int) - (b.log2 : Int)) = (k : Int) := by omega
    rw [hd] at ht
    unfold powLeQuotient at ht
    rw [if_pos (Int.ofNat_nonneg k), Int.toNat_ofNat, decide_eq_true_eq] at ht
    rw [Nat.mul_comm] at ht
    omega
  · omega

theorem scaled_round_div (n b s : Nat) (hb : 0 < b) (hs : b < 2 * s) :
    roundHalfEven (n * s) b / s = n / b := by
  apply Nat.div_eq_of_lt_le
  · refine Nat.le_trans ?_ (roundHalfEven_ge (n * s) b)
    rw [Nat.le_div_iff_mul_le hb]
    calc n / b * s * b = (n / b * b) * s := by ring
      _ ≤ n * s := Nat.mul_le_mul_right s (Nat.div_mul_le_self n b)
  · have h1 := roundHalfEven_le (n * s) b hb
    have h2 : n < b * (n / b + 1) := Nat.lt_mul_div_succ n hb
    have h3 : (n + 1) * s ≤ b * (n / b + 1) * s := Nat.mul_le_mul_right s h2
    by_contra hcon
    have h4 : (n / b).succ * s ≤ roundHalfEven (n * s) b := Nat.le_of_not_lt hcon
    have h5 : b * ((n / b).succ * s) ≤ b * roundHalfEven (n * s) b := Nat.mul_le_mul_left b h4
    have e1 : b * ((n / b).succ * s) = b * (n / b + 1) * s := by
      rw [Nat.succ_eq_add_one]; ring
    have e2 : (n + 1) * s = n * s + s := by ring
    rw [e1] at h5
    rw [e2] at h3
    generalize b * (n / b + 1) * s = Y at h3 h5
    generalize b * roundHalfEven (n * s) b = X at h1 h5
    generalize n * s = Z at h1 h3
    omega

/-- Below `2 ^ 27` the floor of the rounded quotient is the integer quotient:
the rounding error of the double is under the distance of a quotient by a
divisor below `2 ^ 27` to the next integer. -/
theorem floorDivDouble_exact (n b : Nat) (hb : 0 < b) (hb2 : b < 2 ^ 27)
    (hq : n < 2 ^ 27 * b) : floorDivDouble n b = n / b := by
  unfold floorDivDouble
  by_cases hn : n = 0
  · simp [hn]
  · rw [if_neg hn]
    have hL := quotientExponent_lt n b hn 27 hq
    have he : ¬ (0 ≤ quotientExponent n b - 52) := by omega
    simp only [divDouble, he, if_false]
    obtain ⟨t, ht⟩ : ∃ t : Nat, (-(quotientExponent n b - 52)).toNat = 26 + t :=
      ⟨(-(quotientExponent n b - 52)).toNat - 26, by omega⟩
    rw [ht]
    apply scaled_round_div n b _ hb
    have : 2 ^ 26 ≤ 2 ^ (26 + t) := Nat.pow_le_pow_right (by decide) (by omega)
    have h27 : (2 : Nat) ^ 27 = 2 * 2 ^ 26 := by norm_num
    omega

theorem roundDouble_exact (n : Nat) (h : n ≤ 2 ^ 53) : roundDouble n = n := by
  rcases Nat.lt_or_eq_of_le h with h1 | h1
  · unfold roundDouble
    rw [if_pos h1]
  · subst h1; decide

theorem addDouble_exact (a x : Nat) (h : a + x ≤ 2 ^ 53) :
    addDouble (.finite a) x = .finite (a + x) := by
  have hlt : a + x < 2 ^ 1024 :=
    Nat.lt_of_le_of_lt h (Nat.pow_lt_pow_right (by decide) (by decide))
  simp [addDouble, roundDouble_exact _ h, leadingBit_lt _ 1024 hlt (by decide)]

theorem numberToString_exact (n : Nat) (h : n ≤ 2 ^ 53) : numberToString n = toString n := by
  have : n < 10 ^ 21 := Nat.lt_of_le_of_lt h (by norm_num)
  unfold numberToString
  rw [if_pos this]

theorem foldl_addDouble_exact (ps : List Project) (acc : Nat)
    (h : acc + (ps.map (fun p => p.stars)).sum ≤ 2 ^ 53) :
    ps.foldl (fun sum p => addDouble sum p.stars) (.finite acc)
      = .finite (acc + (ps.map (fun p => p.stars)).sum) := by
  induction ps generalizing acc with
  | nil => simp
  | cons p ps ih =>
    simp only [List.map_cons, List.sum_cons] at h
    simp only [List.foldl_cons, List.map_cons, List.sum_cons]
    rw [addDouble_exact acc p.stars (by omega), ih (acc + p.stars) (by omega), Nat.add_assoc]

theorem totalStars_exact (ps : List Project) (h : (ps.map (fun p => p.stars)).sum ≤ 2 ^ 53) :
    totalStars ps = .finite ((ps.map (fun p => p.stars)).sum) := by
  have := foldl_addDouble_exact ps 0 (by simpa using h)
  simpa [totalStars] using this

theorem newSet_foldl_spec (xs acc : List String) (hacc : acc.Nodup) :
    (xs.foldl (fun set x => if x ∈ set then set else set ++ [x]) acc).Nodup ∧
    (xs.foldl (fun set x => if x ∈ set then set else set ++ [x]) acc).toFinset
      = acc.toFinset ∪ xs.toFinset := by
  induction xs generalizing acc with
  | nil => simp [hacc]
  | cons x xs ih =>
    simp only [List.foldl_cons]
    by_cases hx : x ∈ acc
    · rw [if_pos hx]
      obtain ⟨h1, h2⟩ := ih acc hacc
      refine ⟨h1, ?_⟩
      rw [h2]
      ext y
      simp only [Finset.mem_union, List.mem_toFinset, List.mem_cons]
      constructor
      · rintro (h | h)
        · exact Or.inl h
        · exact Or.inr (Or.inr h)
      · rintro (h | h | h)
        · exact Or.inl h
        · exact Or.inl (h ▸ hx)
        · exact Or.inr h
    · rw [if_neg hx]
      have hnd : (acc ++ [x]).Nodup := by
        rw [List.nodup_append]
        refine ⟨hacc, List.nodup_singleton x, ?_⟩
        intro a ha hb
        simp only [List.mem_singleton] at hb
        exact hx (hb ▸ ha)
      obtain ⟨h1, h2⟩ := ih (acc ++ [x]) hnd
      refine ⟨h1, ?_⟩
      rw [h2]
      ext y
      simp only [Finset.mem_union, List.mem_toFinset, List.mem_cons, List.mem_append,
        List.mem_singleton]
      tauto

theorem newSet_length (xs : List String) : (newSet xs).length = xs.toFinset.card := by
  obtain ⟨h1, h2⟩ := newSet_foldl_spec xs [] List.nodup_nil
  unfold newSet
  rw [← List.toFinset_card_of_nodup h1, h2]
  simp

theorem languages_length (ps : List Project) :
    (languages ps).length
      = ((ps.map (fun p => p.language)).filter (fun l => l != "")).toFinset.card := by
  simp [languages, newSet_length]

/-! ## Filtering, dates -/

theorem renderProjects_state (now : Int) (st : Page) :
    (renderProjects now st).allProjects = st.allProjects ∧
    (renderProjects now st).filteredProjects = st.filteredProjects ∧
    (renderProjects now st).currentFilter = st.currentFilter ∧
    (renderProjects now st).loadingShown = st.loadingShown ∧
    (renderProjects now st).repoCount = st.repoCount ∧
    (renderProjects now st).starCount = st.starCount ∧
    (renderProjects now st).languageCount = st.languageCount := by
  unfold renderProjects
  split <;> simp

theorem applyFilter_filtered (now : Int) (st : Page) :
    (applyFilter now st).filteredProjects =
      if st.currentFilter = "all" then st.allProjects
      else st.allProjects.filter (fun p => p.language = st.currentFilter) := by
  unfold applyFilter
  simp only [(renderProjects_state now _).2.1]
  split <;> rfl

theorem applyFilter_state (now : Int) (st : Page) :
    (applyFilter now st).allProjects = st.allProjects ∧
    (applyFilter now st).currentFilter = st.currentFilter ∧
    (applyFilter now st).loadingShown = st.loadingShown ∧
    (applyFilter now st).repoCount = st.repoCount ∧
    (applyFilter now st).starCount = st.starCount ∧
    (applyFilter now st).languageCount = st.languageCount := by
  unfold applyFilter
  simp only [(renderProjects_state now _).1, (renderProjects_state now _).2.2.1,
    (renderProjects_state now _).2.2.2.1, (renderProjects_state now _).2.2.2.2.1,
    (renderProjects_state now _).2.2.2.2.2.1, (renderProjects_state now _).2.2.2.2.2.2]
  split <;> simp

/-- C1: after `applyFilter` runs on a page whose `allProjects` is `fullSet` and
whose `currentFilter` is `c`, `filteredProjects` is the sublist of `fullSet` of
the projects with `c = "all"` or `language = c`, in the order of `fullSet`; for
`c = "all"` it is `fullSet` itself; `allProjects` and `currentFilter` are
unchanged. -/
theorem applyFilter_spec (now : Int) (st : Page) :
    (applyFilter now st).filteredProjects
        = st.allProjects.filter
            (fun p => decide (st.currentFilter = "all") || decide (p.language = st.currentFilter)) ∧
    (applyFilter now st).filteredProjects <+ st.allProjects ∧
    (applyFilter now { st with currentFilter := "all" }).filteredProjects = st.allProjects ∧
    (applyFilter now st).allProjects = st.allProjects ∧
    (applyFilter now st).currentFilter = st.currentFilter := by
  have hf : (applyFilter now st).filteredProjects
        = st.allProjects.filter
            (fun p => decide (st.currentFilter = "all") || decide (p.language = st.currentFilter)) := by
    rw [applyFilter_filtered]
    by_cases h : st.currentFilter = "all"
    · simp [h]
    · simp [h]
  refine ⟨hf, ?_, ?_, (applyFilter_state now st).1, (applyFilter_state now st).2.1⟩
  · rw [hf]; exact List.filter_sublist _
  · rw [applyFilter_filtered]; simp

theorem floorDiv_natCast (n b : Nat) (hb : 0 < b) (hb2 : b < 2 ^ 27) (hq : n < 2 ^ 27 * b) :
    floorDiv (n : Int) b = ((n / b : Nat) : Int) := by
  unfold floorDiv
  rw [if_pos (Int.ofNat_nonneg n), Int.toNat_ofNat, floorDivDouble_exact n b hb hb2 hq]

theorem subDouble_exact (now t : Int) (n : Nat) (hn : now - t = (n : Int)) (h : n ≤ 2 ^ 53) :
    subDouble now t = (n : Int) := by
  unfold subDouble
  rw [hn, if_pos (Int.ofNat_nonneg n), Int.toNat_ofNat, roundDouble_exact n h]

/-- C2, as the code has it: for time values `t ≤ now` that a `Date` can hold and
that are at most `2 ^ 53` milliseconds apart, with
`days = floor((now - t) / 86400000)`, `formatDate` returns "today" for 0 days,
"yesterday" for 1, "<days> days ago" below 7, "<floor(days/7)> weeks ago" below
30, "<floor(days/30)> months ago" below 365 and "<floor(days/365)> years ago"
otherwise; the rows of the boundary table for now = 2024-01-31T00:00:00Z (day
19753 of the epoch) follow. -/
theorem formatDate_spec :
    (∀ now t : Int, validTime now = true → validTime t = true → t ≤ now → now - t ≤ 2 ^ 53 →
      formatDate now t =
        if (now - t).toNat / 86400000 = 0 then "today"
        else if (now - t).toNat / 86400000 = 1 then "yesterday"
        else if (now - t).toNat / 86400000 < 7 then
          toString ((now - t).toNat / 86400000) ++ " days ago"
        else if (now - t).toNat / 86400000 < 30 then
          toString ((now - t).toNat / 86400000 / 7) ++ " weeks ago"
        else if (now - t).toNat / 86400000 < 365 then
          toString ((now - t).toNat / 86400000 / 30) ++ " months ago"
        else toString ((now - t).toNat / 86400000 / 365) ++ " years ago") ∧
    formatDate (19753 * 86400000) (19753 * 86400000) = "today" ∧
    formatDate (19753 * 86400000) (19752 * 86400000) = "yesterday" ∧
    formatDate (19753 * 86400000) (19747 * 86400000) = "6 days ago" ∧
    formatDate (19753 * 86400000) (19746 * 86400000) = "1 weeks ago" ∧
    formatDate (19753 * 86400000) (19358 * 86400000) = "1 years ago" := by
  refine ⟨?_, by decide, by decide, by decide, by decide, by decide⟩
  intro now t hv1 hv2 h hb
  obtain ⟨n, hn⟩ := Int.eq_ofNat_of_zero_le (Int.sub_nonneg_of_le h)
  have hn53 : n ≤ 2 ^ 53 := by
    rw [hn] at hb
    exact_mod_cast hb
  have hk : (1000 * 60 * 60 * 24 : Nat) = 86400000 := by norm_num
  have hq : n < 2 ^ 27 * 86400000 := Nat.lt_of_le_of_lt hn53 (by norm_num)
  have hd27 : n / 86400000 < 2 ^ 27 := by
    rw [Nat.div_lt_iff_lt_mul (by norm_num)]
    exact hq
  unfold formatDate
  rw [hv1, hv2]
  simp only [Bool.and_self, if_true, hk]
  rw [subDouble_exact now t n hn hn53, floorDiv_natCast n 86400000 (by norm_num) (by norm_num) hq]
  simp only [hn, Int.toNat_ofNat]
  generalize n / 86400000 = d at hd27
  have e0 : ((d : Int) = 0) ↔ d = 0 := by omega
  have e1 : ((d : Int) = 1) ↔ d = 1 := by omega
  have e7 : ((d : Int) < 7) ↔ d < 7 := by omega
  have e30 : ((d : Int) < 30) ↔ d < 30 := by omega
  have e365 : ((d : Int) < 365) ↔ d < 365 := by omega
  simp only [e0, e1, e7, e30, e365]
  rw [floorDiv_natCast d 7 (by norm_num) (by norm_num) (by omega),
    floorDiv_natCast d 30 (by norm_num) (by norm_num) (by omega),
    floorDiv_natCast d 365 (by norm_num) (by norm_num) (by omega)]
  rfl

/-- The instance of the amended C2 at now = 2024-01-31 and t = 2024-01-24. -/
theorem formatDate_spec_witness :
    validTime (19753 * 86400000) = true ∧ validTime (19746 * 86400000) = true ∧
    ((19746 * 86400000 : Int) ≤ 19753 * 86400000) ∧
    ((19753 * 86400000 : Int) - 19746 * 86400000 ≤ 2 ^ 53) ∧
    formatDate (19753 * 86400000) (19746 * 86400000) = "1 weeks ago" :=
  ⟨by decide, by decide, by decide, by decide,
   (formatDate_spec.1 (19753 * 86400000) (19746 * 86400000) (by decide) (by decide) (by decide)
      (by decide)).trans (by decide)⟩

/-- C2 as stated fails: the time values 8640000000000000 (the last one a `Date`
holds) and -367217711999999 are 9007217711999999 milliseconds apart, which
is 104250204 whole days and gives "285616 years ago" by the rule; the double
subtraction rounds the difference to 9007217712000000, which is 104250205 days,
and `formatDate` returns "285617 years ago". -/
theorem formatDate_rounding_counterexample :
    validTime 8640000000000000 = true ∧ validTime (-367217711999999) = true ∧
    ((-367217711999999 : Int) ≤ 8640000000000000) ∧
    ((8640000000000000 : Int) - (-367217711999999)).toNat / 86400000 = 104250204 ∧
    ¬ (((8640000000000000 : Int) - (-367217711999999)).toNat / 86400000 < 365) ∧
    toString (((8640000000000000 : Int) - (-367217711999999)).toNat / 86400000 / 365)
      ++ " years ago" = "285616 years ago" ∧
    subDouble 8640000000000000 (-367217711999999) = 9007217712000000 ∧
    formatDate 8640000000000000 (-367217711999999) = "285617 years ago" := by
  decide

/-! ## Statistics -/

theorem updateStats_state (st : Page) :
    (updateStats st).allProjects = st.allProjects ∧
    (updateStats st).filteredProjects = st.filteredProjects ∧
    (updateStats st).currentFilter = st.currentFilter ∧
    (updateStats st).loadingShown = st.loadingShown ∧
    (updateStats st).projectsGrid = st.projectsGrid :=
  ⟨rfl, rfl, rfl, rfl, rfl⟩

/-- C3, as the code has it: for a list of projects whose stars are non-negative
integers with a sum of at most `2 ^ 53`, the three values `updateStats`
computes from `allProjects` and shows are the length of the list, the sum of
the stars of all entries, and the number of distinct non-empty language values
(the first and the last for every list); for the empty list all three are 0;
stars 3, 0, 5 with languages Go, Go, Rust give 3, 8 and 2. -/
theorem updateStats_spec (st : Page) :
    ((st.allProjects.map (fun p => p.stars)).sum ≤ 2 ^ 53 →
      totalStars st.allProjects = .finite ((st.allProjects.map (fun p => p.stars)).sum) ∧
      (updateStats st).starCount = toString ((st.allProjects.map (fun p => p.stars)).sum)) ∧
    (languages st.allProjects).length
      = (((st.allProjects.map (fun p => p.language)).filter (fun l => l ≠ "")).toFinset).card ∧
    (updateStats st).repoCount = toString st.allProjects.length ∧
    (updateStats st).languageCount
      = toString (((st.allProjects.map (fun p => p.language)).filter (fun l => l ≠ "")).toFinset).card ∧
    ((updateStats { st with allProjects := [] }).repoCount = "0" ∧
     (updateStats { st with allProjects := [] }).starCount = "0" ∧
     (updateStats { st with allProjects := [] }).languageCount = "0") ∧
    ((updateStats { st with allProjects :=
        [sampleProject 3 "Go", sampleProject 0 "Go", sampleProject 5 "Rust"] }).repoCount = "3" ∧
     (updateStats { st with allProjects :=
        [sampleProject 3 "Go", sampleProject 0 "Go", sampleProject 5 "Rust"] }).starCount = "8" ∧
     (updateStats { st with allProjects :=
        [sampleProject 3 "Go", sampleProject 0 "Go", sampleProject 5 "Rust"] }).languageCount = "2") := by
  have hl : (languages st.allProjects).length
      = (((st.allProjects.map (fun p => p.language)).filter (fun l => l ≠ "")).toFinset).card := by
    rw [languages_length]
    congr 2
    apply List.filter_congr
    intro x _
    by_cases hx : x = "" <;> simp [hx]
  refine ⟨?_, hl, rfl, ?_, ⟨?_, ?_, ?_⟩, ⟨?_, ?_, ?_⟩⟩
  · intro h
    refine ⟨totalStars_exact _ h, ?_⟩
    show (totalStars st.allProjects).toText = _
    rw [totalStars_exact _ h]
    exact numberToString_exact _ h
  · show toString (languages st.allProjects).length = _
    rw [hl]
  · show toString ([] : List Project).length = "0"
    decide
  · show (totalStars []).toText = "0"
    decide
  · show toString (languages []).length = "0"
    decide
  · show toString [sampleProject 3 "Go", sampleProject 0 "Go", sampleProject 5 "Rust"].length = "3"
    decide
  · show (totalStars
      [sampleProject 3 "Go", sampleProject 0 "Go", sampleProject 5 "Rust"]).toText = "8"
    decide
  · show toString (languages
      [sampleProject 3 "Go", sampleProject 0 "Go", sampleProject 5 "Rust"]).length = "2"
    decide

/-- The instance of the amended C3 at stars 3, 0, 5. -/
theorem updateStats_spec_witness :
    (((pageOf [sampleProject 3 "Go", sampleProject 0 "Go", sampleProject 5 "Rust"]
        "all").allProjects.map (fun p => p.stars)).sum ≤ 2 ^ 53) ∧
    totalStars (pageOf [sampleProject 3 "Go", sampleProject 0 "Go", sampleProject 5 "Rust"]
        "all").allProjects = .finite 8 ∧
    (updateStats (pageOf [sampleProject 3 "Go", sampleProject 0 "Go", sampleProject 5 "Rust"]
        "all")).starCount = "8" :=
  ⟨by decide,
   ((updateStats_spec (pageOf [sampleProject 3 "Go", sampleProject 0 "Go", sampleProject 5 "Rust"]
        "all")).1 (by decide)).1.trans (by decide),
   ((updateStats_spec (pageOf [sampleProject 3 "Go", sampleProject 0 "Go", sampleProject 5 "Rust"]
        "all")).1 (by decide)).2.trans (by decide)⟩

/-- C3 as stated fails: for the stars 9007199254740992 (which is `2 ^ 53`) and 1
the sum of the stars is 9007199254740993, and the double addition of
`updateStats` gives 9007199254740992, which is what the page shows. -/
theorem updateStats_rounding_counterexample :
    ([sampleProject 9007199254740992 "Go", sampleProject 1 "Go"].map (fun p => p.stars)).sum
      = 9007199254740993 ∧
    totalStars [sampleProject 9007199254740992 "Go", sampleProject 1 "Go"]
      = .finite 9007199254740992 ∧
    (updateStats (pageOf [sampleProject 9007199254740992 "Go", sampleProject 1 "Go"]
      "all")).starCount = "9007199254740992" := by
  decide

/-! ## Loading -/

theorem loadProjects_success (now : Int) (st : Page) (status : Nat) (repos : List Repo)
    (h : responseOk status = true) :
    loadProjects now (.response status (.ok repos)) st =
      { applyFilter now (updateStats
          { st with loadingShown := true, projectsGrid := "",
                    allProjects := (repos.map toProject).filter (fun p => !p.isPrivate) })
        with loadingShown := false } := by
  simp [loadProjects, loadBody, h]

theorem loadProjects_success_allProjects (now : Int) (st : Page) (status : Nat)
    (repos : List Repo) (h : responseOk status = true) :
    (loadProjects now (.response status (.ok repos)) st).allProjects
      = (repos.map toProject).filter (fun p => !p.isPrivate) := by
  rw [loadProjects_success now st status repos h]
  show (applyFilter now _).allProjects = _
  rw [(applyFilter_state now _).1]
  rfl

theorem loadProjects_success_stats (now : Int) (st : Page) (status : Nat)
    (repos : List Repo) (h : responseOk status = true) :
    (loadProjects now (.response status (.ok repos)) st).repoCount
      = toString ((repos.map toProject).filter (fun p => !p.isPrivate)).length ∧
    (loadProjects now (.response status (.ok repos)) st).starCount
      = (totalStars ((repos.map toProject).filter (fun p => !p.isPrivate))).toText ∧
    (loadProjects now (.response status (.ok repos)) st).languageCount
      = toString (languages ((repos.map toProject).filter (fun p => !p.isPrivate))).length := by
  rw [loadProjects_success now st status repos h]
  refine ⟨?_, ?_, ?_⟩
  · show (applyFilter now _).repoCount = _
    rw [(applyFilter_state now _).2.2.2.1]; rfl
  · show (applyFilter now _).starCount = _
    rw [(applyFilter_state now _).2.2.2.2.1]; rfl
  · show (applyFilter now _).languageCount = _
    rw [(applyFilter_state now _).2.2.2.2.2]; rfl

theorem loadProjects_success_filtered (now : Int) (st : Page) (status : Nat)
    (repos : List Repo) (h : responseOk status = true) :
    (loadProjects now (.response status (.ok repos)) st).filteredProjects
      <+ (repos.map toProject).filter (fun p => !p.isPrivate) := by
  rw [loadProjects_success now st status repos h]
  show (applyFilter now _).filteredProjects <+ _
  rw [applyFilter_filtered]
  split
  · exact List.Sublist.refl _
  · exact List.filter_sublist _

theorem clickFilter_filtered_sublist (now : Int) (c : String) (st : Page) :
    (clickFilter now c st).filteredProjects <+ st.allProjects := by
  unfold clickFilter
  rw [applyFilter_filtered]
  split
  · exact List.Sublist.refl _
  · exact List.filter_sublist _

/-- C7: after `loadProjects` installs a successful response, `allProjects` is
the normalised descriptors that are not private, in response order; no project
in `allProjects`, in `filteredProjects`, or in the `filteredProjects` of any
later category selection is private; and when every descriptor is private
`allProjects` is empty and the three counters show 0.  The normalised record of
a descriptor carries its name, full name, link, star and fork counts, update
time and privacy flag as they are, its topics or the empty list, and its
description and language or their defaults. -/
theorem loadProjects_excludes_private (now : Int) (st : Page) (status : Nat)
    (repos : List Repo) (h : responseOk status = true) :
    (loadProjects now (.response status (.ok repos)) st).allProjects
      = (repos.map toProject).filter (fun p => !p.isPrivate) ∧
    (loadProjects now (.response status (.ok repos)) st).allProjects
      = (repos.filter (fun r => !r.private_)).map toProject ∧
    (∀ p ∈ (loadProjects now (.response status (.ok repos)) st).allProjects,
      p.isPrivate = false) ∧
    (∀ p ∈ (loadProjects now (.response status (.ok repos)) st).filteredProjects,
      p.isPrivate = false) ∧
    (∀ (later : Int) (c : String),
      ∀ p ∈ (clickFilter later c
          (loadProjects now (.response status (.ok repos)) st)).filteredProjects,
        p.isPrivate = false) ∧
    ((∀ r ∈ repos, r.private_ = true) →
      (loadProjects now (.response status (.ok repos)) st).allProjects = [] ∧
      (loadProjects now (.response status (.ok repos)) st).repoCount = "0" ∧
      (loadProjects now (.response status (.ok repos)) st).starCount = "0" ∧
      (loadProjects now (.response status (.ok repos)) st).languageCount = "0") ∧
    (∀ r : Repo, toProject r =
      { name := r.name
        fullName := r.full_name
        description :=
          match r.description with
          | none => "No description available"
          | some d => if d = "" then "No description available" else d
        url := r.html_url
        stars := r.stargazers_count
        forks := r.forks_count
        language :=
          match r.language with
          | none => "Other"
          | some l => if l = "" then "Other" else l
        updated := r.updated_at
        topics :=
          match r.topics with
          | none => []
          | some ts => ts
        isPrivate := r.private_ }) ∧
    (∀ p ∈ (loadProjects now (.response status (.ok repos)) st).allProjects,
      ∃ r ∈ repos, r.private_ = false ∧ p.name = r.name ∧ p.fullName = r.full_name ∧
        p.url = r.html_url ∧ p.stars = r.stargazers_count ∧ p.forks = r.forks_count ∧
        p.updated = r.updated_at) := by
  have hall := loadProjects_success_allProjects now st status repos h
  have hpriv : ∀ p ∈ (loadProjects now (.response status (.ok repos)) st).allProjects,
      p.isPrivate = false := by
    intro p hp
    rw [hall, List.mem_filter] at hp
    simpa using hp.2
  refine ⟨hall, ?_, hpriv, ?_, ?_, ?_, ?_, ?_⟩
  · rw [hall, List.filter_map]
    rfl
  · intro p hp
    have := (loadProjects_success_filtered now st status repos h).subset hp
    rw [← hall] at this
    exact hpriv p this
  · intro later c p hp
    exact hpriv p ((clickFilter_filtered_sublist later c _).subset hp)
  · intro hr
    have hnil : (repos.map toProject).filter (fun p => !p.isPrivate) = [] := by
      rw [List.filter_eq_nil_iff]
      intro p hp
      obtain ⟨r, hr1, rfl⟩ := List.mem_map.1 hp
      simp [toProject, hr r hr1]
    obtain ⟨h1, h2, h3⟩ := loadProjects_success_stats now st status repos h
    rw [hnil] at h1 h2 h3
    refine ⟨hall.trans hnil, h1.trans (by decide), h2.trans (by decide), h3.trans (by decide)⟩
  · intro r
    cases hd : r.description <;> cases hl : r.language <;> cases ht : r.topics <;>
      simp [toProject, orElse, orEmpty, hd, hl, ht]
  · intro p hp
    rw [hall] at hp
    obtain ⟨hm, hnp⟩ := List.mem_filter.1 hp
    obtain ⟨r, hr, rfl⟩ := List.mem_map.1 hm
    refine ⟨r, hr, ?_, rfl, rfl, rfl, rfl, rfl, rfl⟩
    simpa [toProject] using hnp

/-- The instances of C7 at a 200 response with one private and one public
descriptor, where only the public one is installed, and at a 200 response with
a private descriptor only, where nothing is installed and the counters show 0. -/
theorem loadProjects_excludes_private_witness :
    responseOk 200 = true ∧
    (loadProjects 0 (.response 200 (.ok [privateRepo, publicRepo]))
        (initialPage "" "" "" "")).allProjects
      = [{ name := "demo", fullName := "octocat/demo", description := "A demo",
           url := "https://example.org/demo", stars := 3, forks := 1, language := "Go",
           updated := 0, topics := ["cli"], isPrivate := false }] ∧
    (∀ r ∈ [privateRepo], r.private_ = true) ∧
    (loadProjects 0 (.response 200 (.ok [privateRepo])) (initialPage "" "" "" "")).allProjects
      = [] ∧
    (loadProjects 0 (.response 200 (.ok [privateRepo])) (initialPage "" "" "" "")).repoCount
      = "0" ∧
    (loadProjects 0 (.response 200 (.ok [privateRepo])) (initialPage "" "" "" "")).starCount
      = "0" ∧
    (loadProjects 0 (.response 200 (.ok [privateRepo])) (initialPage "" "" "" "")).languageCount
      = "0" :=
  ⟨by decide,
   (loadProjects_excludes_private 0 (initialPage "" "" "" "") 200 [privateRepo, publicRepo]
      (by decide)).1.trans (by decide),
   by decide,
   (loadProjects_excludes_private 0 (initialPage "" "" "" "") 200 [privateRepo]
      (by decide)).2.2.2.2.2.1 (by decide)⟩

theorem orElse_ne_empty (a : Option String) (b : String) (hb : b ≠ "") :
    orElse a b ≠ "" := by
  unfold orElse
  cases a with
  | none => exact hb
  | some s =>
    by_cases hs : s = ""
    · simp [hs, hb]
    · simp [hs]

theorem toProject_language_ne_empty (r : Repo) : (toProject r).language ≠ "" :=
  orElse_ne_empty r.language "Other" (by decide)

theorem filter_ne_empty_of_all (xs : List String) (h : ∀ x ∈ xs, x ≠ "") :
    xs.filter (fun l => l != "") = xs := by
  rw [List.filter_eq_self]
  intro x hx
  simpa using h x hx

/-- C9, as the code has it: the record built for a descriptor has the
descriptor's language when that is present and non-empty, and "Other" when it
is `null` or the empty string; it has the descriptor's description when that is
present and non-empty, and "No description available" when it is `null` or the
empty string.  So every project of `allProjects` after a successful load has a
non-empty language, and the language counter shows the number of distinct
language values occurring in `allProjects`. -/
theorem toProject_defaults (r : Repo) :
    (∀ l, r.language = some l → l ≠ "" → (toProject r).language = l) ∧
    (r.language = none ∨ r.language = some "" → (toProject r).language = "Other") ∧
    (∀ d, r.description = some d → d ≠ "" → (toProject r).description = d) ∧
    (r.description = none ∨ r.description = some "" →
      (toProject r).description = "No description available") ∧
    (toProject r).language ≠ "" ∧
    (∀ (now : Int) (st : Page) (status : Nat) (repos : List Repo),
      responseOk status = true →
      (∀ p ∈ (loadProjects now (.response status (.ok repos)) st).allProjects,
        p.language ≠ "") ∧
      (loadProjects now (.response status (.ok repos)) st).languageCount
        = toString (((loadProjects now (.response status (.ok repos)) st).allProjects.map
            (fun p => p.language)).toFinset).card) := by
  refine ⟨?_, ?_, ?_, ?_, toProject_language_ne_empty r, ?_⟩
  · intro l hl hne
    simp [toProject, orElse, hl, hne]
  · rintro (hl | hl) <;> simp [toProject, orElse, hl]
  · intro d hd hne
    simp [toProject, orElse, hd, hne]
  · rintro (hd | hd) <;> simp [toProject, orElse, hd]
  · intro now st status repos h
    have hall := loadProjects_success_allProjects now st status repos h
    have hne : ∀ p ∈ (loadProjects now (.response status (.ok repos)) st).allProjects,
        p.language ≠ "" := by
      intro p hp
      rw [hall] at hp
      obtain ⟨r', _, rfl⟩ := List.mem_map.1 (List.mem_filter.1 hp).1
      exact toProject_language_ne_empty r'
    refine ⟨hne, ?_⟩
    rw [(loadProjects_success_stats now st status repos h).2.2, ← hall, languages_length,
      filter_ne_empty_of_all]
    intro x hx
    obtain ⟨p, hp, rfl⟩ := List.mem_map.1 hx
    exact hne p hp

/-- The instances of the amended C9 at a descriptor with `null` language and an
empty description, at one with both present and non-empty, and at a 200
response that carries the two. -/
theorem toProject_defaults_witness :
    ((bareRepo.language = none ∨ bareRepo.language = some "") ∧
      (toProject bareRepo).language = "Other") ∧
    ((bareRepo.description = none ∨ bareRepo.description = some "") ∧
      (toProject bareRepo).description = "No description available") ∧
    (publicRepo.language = some "Go" ∧ "Go" ≠ "" ∧ (toProject publicRepo).language = "Go") ∧
    (publicRepo.description = some "A demo" ∧ "A demo" ≠ "" ∧
      (toProject publicRepo).description = "A demo") ∧
    (responseOk 200 = true ∧
      (loadProjects 0 (.response 200 (.ok [bareRepo, publicRepo]))
        (initialPage "" "" "" "")).languageCount
        = toString (((loadProjects 0 (.response 200 (.ok [bareRepo, publicRepo]))
            (initialPage "" "" "" "")).allProjects.map (fun p => p.language)).toFinset).card) :=
  ⟨⟨Or.inl rfl, (toProject_defaults bareRepo).2.1 (Or.inl rfl)⟩,
   ⟨Or.inr rfl, (toProject_defaults bareRepo).2.2.2.1 (Or.inr rfl)⟩,
   ⟨rfl, by decide, (toProject_defaults publicRepo).1 "Go" rfl (by decide)⟩,
   ⟨rfl, by decide, (toProject_defaults publicRepo).2.2.1 "A demo" rfl (by decide)⟩,
   ⟨by decide,
    ((toProject_defaults publicRepo).2.2.2.2.2 0 (initialPage "" "" "" "") 200
      [bareRepo, publicRepo] (by decide)).2⟩⟩

/-- C9 as stated fails: the descriptor `bareRepo` has a description that is
present (the empty string), and the record built for it has the placeholder
instead of that description. -/
theorem toProject_present_description_counterexample :
    bareRepo.description = some "" ∧
    (toProject bareRepo).description = "No description available" ∧
    (toProject bareRepo).description ≠ "" := by
  decide

/-! ## Language colours -/

theorem lookup_mem_values (l : List (String × String)) (k v : String)
    (h : l.lookup k = some v) : v ∈ l.map Prod.snd := by
  induction l with
  | nil => simp [List.lookup] at h
  | cons kv l ih =>
    obtain ⟨k', v'⟩ := kv
    simp only [List.lookup] at h
    split at h
    · simp only [Option.some.injEq] at h
      simp [h]
    · simp [ih h]

/-- Outside the names inherited from `Object.prototype`, `getLanguageColor`
returns the table's colour for a key and the colour of "Other" otherwise. -/
theorem getLanguageColor_of_not_inherited (language : String)
    (h : language ∉ objectPrototypeKeys) :
    getLanguageColor language = .str ((colors.lookup language).getD "#00d4ff") := by
  unfold getLanguageColor getProperty
  cases hl : colors.lookup language with
  | none =>
    simp only [if_neg h, JSValue.truthy]
    decide
  | some v =>
    have hv : v ∈ colors.map Prod.snd := lookup_mem_values colors language v hl
    have hne : ∀ c ∈ colors.map Prod.snd, c ≠ "" := by decide
    simp [JSValue.truthy, hne v hv]

/-- C10 fails on the code at the language "constructor": it is not a key of the
table, yet the lookup finds the member every object inherits, which is truthy,
so the fallback is not taken and the result is none of the table's colours. -/
theorem getLanguageColor_constructor :
    colors.lookup "constructor" = none ∧
    getLanguageColor "constructor" = .inherited "constructor" ∧
    getLanguageColor "constructor" ≠ .str "#00d4ff" ∧
    (∀ c ∈ colors.map Prod.snd, getLanguageColor "constructor" ≠ .str c) ∧
    (getLanguageColor "constructor").toText = "function Object() \x7b [native code] \x7d" := by
  decide

/-! ## Failed loads -/

theorem loadProjects_error (now : Int) (st : Page) (outcome : FetchOutcome) (message : String)
    (h : loadBody now outcome { st with loadingShown := true, projectsGrid := "" }
      = .error message) :
    loadProjects now outcome st =
      { st with loadingShown := false, projectsGrid := errorPlaceholder message } := by
  simp [loadProjects, h]

/-- C6, as the code has it: after `loadProjects` handles a response with a
non-success status code `s`, the grid shows the error placeholder with the
message "GitHub API error: <s>" and the loading indicator is cleared, while
`allProjects`, `filteredProjects`, `currentFilter` and the three counters are
exactly what they were before the call; so `allProjects` and `filteredProjects`
are empty afterwards when they were empty before, as at start-up. -/
theorem loadProjects_failure (now : Int) (st : Page) (status : Nat)
    (body : Except String (List Repo)) (h : responseOk status = false) :
    (loadProjects now (.response status body) st).projectsGrid
      = errorPlaceholder ("GitHub API error: " ++ toString status) ∧
    (loadProjects now (.response status body) st).loadingShown = false ∧
    (loadProjects now (.response status body) st).allProjects = st.allProjects ∧
    (loadProjects now (.response status body) st).filteredProjects = st.filteredProjects ∧
    (loadProjects now (.response status body) st).currentFilter = st.currentFilter ∧
    (loadProjects now (.response status body) st).repoCount = st.repoCount ∧
    (loadProjects now (.response status body) st).starCount = st.starCount ∧
    (loadProjects now (.response status body) st).languageCount = st.languageCount ∧
    (st.allProjects = [] → st.filteredProjects = [] →
      (loadProjects now (.response status body) st).allProjects = [] ∧
      (loadProjects now (.response status body) st).filteredProjects = []) := by
  have hb : loadBody now (.response status body) { st with loadingShown := true, projectsGrid := "" }
      = .error ("GitHub API error: " ++ toString status) := by
    simp [loadBody, h]
  rw [loadProjects_error now st _ _ hb]
  exact ⟨rfl, rfl, rfl, rfl, rfl, rfl, rfl, rfl, fun h1 h2 => ⟨h1, h2⟩⟩

/-- The instance of the amended C6 at a 404 response on the start-up state. -/
theorem loadProjects_failure_witness :
    responseOk 404 = false ∧
    (loadProjects 0 (.response 404 (.error "")) (initialPage "" "0" "0" "0")).projectsGrid
      = errorPlaceholder "GitHub API error: 404" ∧
    (loadProjects 0 (.response 404 (.error "")) (initialPage "" "0" "0" "0")).allProjects = [] :=
  ⟨by decide,
   (loadProjects_failure 0 (initialPage "" "0" "0" "0") 404 (.error "") (by decide)).1.trans
     (congrArg errorPlaceholder (by decide)),
   ((loadProjects_failure 0 (initialPage "" "0" "0" "0") 404 (.error "") (by decide)).2.2.2.2.2.2.2.2
     rfl rfl).1⟩

/-- C6 as stated fails: a 500 response that follows a successful load leaves
the projects of the earlier load in `allProjects` and `filteredProjects`. -/
theorem loadProjects_failure_keeps_projects_counterexample :
    responseOk 500 = false ∧
    (loadProjects 0 (.response 500 (.error ""))
      (loadProjects 0 (.response 200 (.ok [publicRepo])) (initialPage "" "0" "0" "0"))).allProjects
        = [toProject publicRepo] ∧
    (loadProjects 0 (.response 500 (.error ""))
      (loadProjects 0 (.response 200 (.ok [publicRepo])) (initialPage "" "0" "0" "0"))).filteredProjects
        = [toProject publicRepo] ∧
    (loadProjects 0 (.response 500 (.error ""))
      (loadProjects 0 (.response 200 (.ok [publicRepo])) (initialPage "" "0" "0" "0"))).allProjects
        ≠ [] := by
  decide

/-! ## Escaping -/

theorem escapeChar_plain (c : Char) (h1 : c ≠ '&') (h2 : c ≠ Char.ofNat 160) (h3 : c ≠ '<')
    (h4 : c ≠ '>') : escapeChar c = [c] := by
  simp [escapeChar, h1, h2, h3, h4]

theorem escapeChars_plain (cs : List Char)
    (h : ∀ c ∈ cs, c ≠ '&' ∧ c ≠ Char.ofNat 160 ∧ c ≠ '<' ∧ c ≠ '>') :
    escapeChars cs = cs := by
  induction cs with
  | nil => rfl
  | cons c cs ih =>
    obtain ⟨h1, h2, h3, h4⟩ := h c (List.mem_cons_self c cs)
    rw [escapeChars, escapeChar_plain c h1 h2 h3 h4,
      ih (fun d hd => h d (List.mem_cons_of_mem c hd))]
    rfl

theorem escapeChars_mem_plain (cs : List Char) (c : Char) (hc : c ∈ cs)
    (h1 : c ≠ '&') (h2 : c ≠ Char.ofNat 160) (h3 : c ≠ '<') (h4 : c ≠ '>') :
    c ∈ escapeChars cs := by
  induction cs with
  | nil => simp at hc
  | cons d cs ih =>
    simp only [escapeChars, List.mem_append]
    rcases List.mem_cons.1 hc with rfl | hc'
    · left
      rw [escapeChar_plain c h1 h2 h3 h4]
      simp
    · exact Or.inr (ih hc')

theorem escapeChars_no_angle (cs : List Char) :
    '<' ∉ escapeChars cs ∧ '>' ∉ escapeChars cs := by
  induction cs with
  | nil => simp [escapeChars]
  | cons c cs ih =>
    simp only [escapeChars, List.mem_append, not_or]
    refine ⟨⟨?_, ih.1⟩, ⟨?_, ih.2⟩⟩
    · unfold escapeChar
      split_ifs with h1 h2 h3 h4
      · decide
      · decide
      · decide
      · decide
      · simpa using fun h => h3 h.symm
    · unfold escapeChar
      split_ifs with h1 h2 h3 h4
      · decide
      · decide
      · decide
      · decide
      · simpa using fun h => h4 h.symm

theorem escapeChars_no_nbsp (cs : List Char) : Char.ofNat 160 ∉ escapeChars cs := by
  induction cs with
  | nil => simp [escapeChars]
  | cons c cs ih =>
    simp only [escapeChars, List.mem_append, not_or]
    refine ⟨?_, ih⟩
    unfold escapeChar
    split_ifs with h1 h2 h3 h4
    · decide
    · decide
    · decide
    · decide
    · simpa using fun h => h2 h.symm

theorem escapeChars_append (as bs : List Char) :
    escapeChars (as ++ bs) = escapeChars as ++ escapeChars bs := by
  induction as with
  | nil => rfl
  | cons a as ih => simp [escapeChars, ih]

theorem escapeChars_ampersand (cs : List Char) (rest : List Char)
    (h : ('&' :: rest) <:+ escapeChars cs) : ∃ e ∈ entityTails, e <+: rest := by
  induction cs with
  | nil => simp [escapeChars] at h
  | cons c cs ih =>
    simp only [escapeChars] at h
    unfold escapeChar at h
    split_ifs at h with h1 h2 h3 h4
    · simp only [List.cons_append, List.nil_append, List.suffix_cons_iff, List.cons.injEq] at h
      rcases h with h | h | h | h | h | h
      · exact ⟨['a', 'm', 'p', ';'], by simp [entityTails], by rw [h.2]; simp⟩
      · exact absurd h.1 (by decide)
      · exact absurd h.1 (by decide)
      · exact absurd h.1 (by decide)
      · exact absurd h.1 (by decide)
      · exact ih h
    · simp only [List.cons_append, List.nil_append, List.suffix_cons_iff, List.cons.injEq] at h
      rcases h with h | h | h | h | h | h | h
      · exact ⟨['n', 'b', 's', 'p', ';'], by simp [entityTails], by rw [h.2]; simp⟩
      · exact absurd h.1 (by decide)
      · exact absurd h.1 (by decide)
      · exact absurd h.1 (by decide)
      · exact absurd h.1 (by decide)
      · exact absurd h.1 (by decide)
      · exact ih h
    · simp only [List.cons_append, List.nil_append, List.suffix_cons_iff, List.cons.injEq] at h
      rcases h with h | h | h | h | h
      · exact ⟨['l', 't', ';'], by simp [entityTails], by rw [h.2]; simp⟩
      · exact absurd h.1 (by decide)
      · exact absurd h.1 (by decide)
      · exact absurd h.1 (by decide)
      · exact ih h
    · simp only [List.cons_append, List.nil_append, List.suffix_cons_iff, List.cons.injEq] at h
      rcases h with h | h | h | h | h
      · exact ⟨['g', 't', ';'], by simp [entityTails], by rw [h.2]; simp⟩
      · exact absurd h.1 (by decide)
      · exact absurd h.1 (by decide)
      · exact absurd h.1 (by decide)
      · exact ih h
    · simp only [List.cons_append, List.nil_append, List.suffix_cons_iff, List.cons.injEq] at h
      rcases h with h | h
      · exact absurd h.1.symm h1
      · exact ih h

theorem readEntity_plain (c : Char) (rest : List Char) (h : c ≠ '&') :
    readEntity (c :: rest) = none := by
  have h' : ¬ ('&' = c) := fun e => h e.symm
  simp [readEntity, entityTable, h']

theorem readEntity_amp (r : List Char) :
    readEntity ('&' :: 'a' :: 'm' :: 'p' :: ';' :: r) = some ('&', r) := by
  simp [readEntity, entityTable]

theorem readEntity_lt (r : List Char) :
    readEntity ('&' :: 'l' :: 't' :: ';' :: r) = some ('<', r) := by
  simp [readEntity, entityTable]

theorem readEntity_gt (r : List Char) :
    readEntity ('&' :: 'g' :: 't' :: ';' :: r) = some ('>', r) := by
  simp [readEntity, entityTable]

theorem readEntity_nbsp (r : List Char) :
    readEntity ('&' :: 'n' :: 'b' :: 's' :: 'p' :: ';' :: r) = some (Char.ofNat 160, r) := by
  simp [readEntity, entityTable]

theorem length_le_escapeChars (cs : List Char) : cs.length ≤ (escapeChars cs).length := by
  induction cs with
  | nil => simp
  | cons c cs ih =>
    simp only [escapeChars, List.length_append, List.length_cons]
    have : 1 ≤ (escapeChar c).length := by
      unfold escapeChar; split_ifs <;> simp
    omega

theorem decodeFuel_escapeChars (cs : List Char) (fuel : Nat) (h : cs.length ≤ fuel) :
    decodeFuel fuel (escapeChars cs) = cs := by
  induction cs generalizing fuel with
  | nil => cases fuel <;> simp [escapeChars, decodeFuel]
  | cons c cs ih =>
    obtain ⟨f, rfl⟩ : ∃ f, fuel = f + 1 := ⟨fuel - 1, by simp at h; omega⟩
    have hf : cs.length ≤ f := by simpa using h
    simp only [escapeChars]
    unfold escapeChar
    split_ifs with h1 h2 h3 h4
    · subst h1
      simp [decodeFuel, readEntity_amp, ih f hf]
    · subst h2
      simp [decodeFuel, readEntity_nbsp, ih f hf]
    · subst h3
      simp [decodeFuel, readEntity_lt, ih f hf]
    · subst h4
      simp [decodeFuel, readEntity_gt, ih f hf]
    · simp [decodeFuel, readEntity_plain c _ h1, ih f hf]

theorem decodeEntities_escapeChars (cs : List Char) :
    decodeEntities (escapeChars cs) = cs :=
  decodeFuel_escapeChars cs _ (length_le_escapeChars cs)

/-- C5, as the code has it: `escapeHtml` encodes `<`, `>`, `&` (and the no-break
space) and leaves every other character, the quotation marks `"` and `'`
included, as it is.  The result contains no raw `<` or `>` and no raw no-break
space, every `&` in it starts one of the entities `&amp;`, `&nbsp;`, `&lt;`,
`&gt;`, and decoding the entities gives back the input; for the name
`<img src=x onerror=alert(1)>` the result has `&lt;` and `&gt;` in place of the
angle brackets.  The encoding goes character by character: the result for a
concatenation is the concatenation of the results, and the four encoded
characters give `&amp;`, `&lt;`, `&gt;` and `&nbsp;`. -/
theorem escapeHtml_spec (s : String) :
    '<' ∉ (escapeHtml s).data ∧
    '>' ∉ (escapeHtml s).data ∧
    (∀ rest, ('&' :: rest) <:+ (escapeHtml s).data → ∃ e ∈ entityTails, e <+: rest) ∧
    String.mk (decodeEntities (escapeHtml s).data) = s ∧
    (∀ c ∈ s.data, c ≠ '&' → c ≠ Char.ofNat 160 → c ≠ '<' → c ≠ '>' →
      escapeChar c = [c] ∧ c ∈ (escapeHtml s).data) ∧
    ((∀ c ∈ s.data, c ≠ '&' ∧ c ≠ Char.ofNat 160 ∧ c ≠ '<' ∧ c ≠ '>') → escapeHtml s = s) ∧
    escapeHtml "<img src=x onerror=alert(1)>" = "&lt;img src=x onerror=alert(1)&gt;" ∧
    Char.ofNat 160 ∉ (escapeHtml s).data ∧
    (∀ t : String, escapeHtml (s ++ t) = escapeHtml s ++ escapeHtml t) ∧
    (escapeHtml "&" = "&amp;" ∧ escapeHtml "<" = "&lt;" ∧ escapeHtml ">" = "&gt;" ∧
      escapeHtml (String.mk [Char.ofNat 160]) = "&nbsp;" ∧
      escapeHtml "a < b && c > d" = "a &lt; b &amp;&amp; c &gt; d") := by
  refine ⟨(escapeChars_no_angle s.data).1, (escapeChars_no_angle s.data).2,
    fun rest h => escapeChars_ampersand s.data rest h, ?_,
    fun c hc h1 h2 h3 h4 =>
      ⟨escapeChar_plain c h1 h2 h3 h4, escapeChars_mem_plain s.data c hc h1 h2 h3 h4⟩,
    ?_, by decide, escapeChars_no_nbsp s.data, ?_, by decide⟩
  rotate_left 2
  · intro t
    show String.mk (escapeChars (s ++ t).data) = String.mk (escapeChars s.data) ++ String.mk (escapeChars t.data)
    rw [String.data_append, escapeChars_append]
    rfl
  · show String.mk (decodeEntities (escapeChars s.data)) = s
    rw [decodeEntities_escapeChars]
  · intro h
    show String.mk (escapeChars s.data) = s
    rw [escapeChars_plain s.data h]

/-- The instances of the amended C5 at a text of quotation marks only, at the
quotation mark of that text, and at the ampersand of `a&b`. -/
theorem escapeHtml_spec_witness :
    ((∀ c ∈ "\"\x27".data, c ≠ '&' ∧ c ≠ Char.ofNat 160 ∧ c ≠ '<' ∧ c ≠ '>') ∧
      escapeHtml "\"\x27" = "\"\x27") ∧
    ('"' ∈ "\"\x27".data ∧ '"' ∈ (escapeHtml "\"\x27").data) ∧
    (('&' :: ['a', 'm', 'p', ';', 'b']) <:+ (escapeHtml "a&b").data ∧
      ∃ e ∈ entityTails, e <+: ['a', 'm', 'p', ';', 'b']) :=
  ⟨⟨by decide, (escapeHtml_spec "\"\x27").2.2.2.2.2.1 (by decide)⟩,
   ⟨by decide,
    ((escapeHtml_spec "\"\x27").2.2.2.2.1 '"' (by decide) (by decide) (by decide) (by decide)
      (by decide)).2⟩,
   ⟨by decide, (escapeHtml_spec "a&b").2.2.1 ['a', 'm', 'p', ';', 'b'] (by decide)⟩⟩

/-- C5 as stated fails: the quotation marks `"` and `'` come out of `escapeHtml`
raw. -/
theorem escapeHtml_quotes_counterexample :
    '"' ∈ (escapeHtml "say \"hi\"").data ∧
    Char.ofNat 39 ∈ (escapeHtml "it\x27s").data ∧
    escapeHtml "say \"hi\"" = "say \"hi\"" ∧
    escapeHtml "it\x27s" = "it\x27s" := by
  decide

/-! ## Rendering -/

theorem getElem?_append_of_some {α : Type} (l r : List α) (k : Nat) (c : α)
    (h : l[k]? = some c) : (l ++ r)[k]? = some c := by
  have hk : k < l.length := by
    by_contra hc
    rw [List.getElem?_eq_none (Nat.le_of_not_lt hc)] at h
    exact Option.noConfusion h
  rw [List.getElem?_append_left hk, h]

theorem data_append_getElem? (a b : String) (k : Nat) (c : Char)
    (h : a.data[k]? = some c) : (a ++ b).data[k]? = some c := by
  rw [String.data_append]
  exact getElem?_append_of_some _ _ k c h

theorem projectCard_char9 (now : Int) (p : Project) :
    (projectCard now p).data[9]? = some '<' := by
  unfold projectCard cardPieces
  rw [String.data_join]
  simp only [List.map_cons, List.flatten_cons, pieceText]
  exact getElem?_append_of_some _ _ 9 '<' (by decide)

set_option maxRecDepth 8000 in
theorem noProjectsPlaceholder_char9 : noProjectsPlaceholder.data[9]? = some ' ' := by
  decide

theorem join_cards_ne_placeholder (now : Int) (p : Project) (ps : List Project) :
    String.join ((p :: ps).map (projectCard now)) ≠ noProjectsPlaceholder := by
  intro h
  have h1 : (String.join ((p :: ps).map (projectCard now))).data[9]? = some '<' := by
    rw [String.data_join]
    simp only [List.map_cons, List.flatten_cons]
    exact getElem?_append_of_some _ _ 9 '<' (projectCard_char9 now p)
  rw [h, noProjectsPlaceholder_char9] at h1
  exact absurd h1 (by decide)

set_option maxRecDepth 8000 in
theorem errorPlaceholder_char72 (message : String) :
    (errorPlaceholder message).data[72]? = some 'e' := by
  unfold errorPlaceholder
  apply data_append_getElem?
  apply data_append_getElem?
  apply data_append_getElem?
  apply data_append_getElem?
  apply data_append_getElem?
  apply data_append_getElem?
  decide

set_option maxRecDepth 8000 in
theorem noProjectsPlaceholder_char72 : noProjectsPlaceholder.data[72]? = some 'f' := by
  decide

theorem noProjectsPlaceholder_ne_error (message : String) :
    noProjectsPlaceholder ≠ errorPlaceholder message := by
  intro h
  have h1 := errorPlaceholder_char72 message
  rw [← h, noProjectsPlaceholder_char72] at h1
  exact absurd h1 (by decide)

theorem piece_infix_card (now : Int) (p : Project) (x : String ⊕ String)
    (h : x ∈ cardPieces now p) : (pieceText x).data <:+: (projectCard now p).data := by
  unfold projectCard
  rw [String.data_join]
  apply List.infix_of_mem_flatten
  exact List.mem_map.2 ⟨pieceText x, List.mem_map.2 ⟨x, h, rfl⟩, rfl⟩

/-- The card of a project, spelled out: the template of `renderProjects` with
the interpolated values in their places. -/
theorem projectCard_text (now : Int) (p : Project) :
    projectCard now p =
      "\n" ++
      "        <div class=\"project-card\" onclick=\"window.open(\x27" ++ p.url ++
      "\x27, \x27_blank\x27)\">\n" ++
      "            <div class=\"project-header\">\n" ++
      "                <div>\n" ++
      "                    <h3 class=\"project-name\">\n" ++
      "                        <a href=\"" ++ p.url ++
      "\" target=\"_blank\" onclick=\"event.stopPropagation()\">\n" ++
      "                            " ++ escapeHtml p.name ++
      "\n" ++
      "                        </a>\n" ++
      "                    </h3>\n" ++
      "                    <div class=\"project-stats\">\n" ++
      "                        <span><i class=\"fas fa-star\"></i> " ++ numberToString p.stars ++
      "</span>\n" ++
      "                        <span><i class=\"fas fa-code-branch\"></i> " ++
      numberToString p.forks ++
      "</span>\n" ++
      "                    </div>\n" ++
      "                </div>\n" ++
      "            </div>\n" ++
      "            <p class=\"project-description\">" ++ escapeHtml p.description ++
      "</p>\n" ++
      "            <div class=\"project-footer\">\n" ++
      "                <div class=\"project-language\">\n" ++
      "                    <span class=\"language-dot\" style=\"background-color: " ++
      (getLanguageColor p.language).toText ++
      "\"></span>\n" ++
      "                    <span>" ++ p.language ++
      "</span>\n" ++
      "                </div>\n" ++
      "                <div class=\"project-date\">\n" ++
      "                    Updated " ++ formatDate now p.updated ++
      "\n" ++
      "                </div>\n" ++
      "            </div>\n" ++
      "        </div>\n" ++
      "    " := by
  simp only [projectCard, cardPieces, List.map, pieceText, String.join, List.foldl,
    String.append_assoc, String.empty_append]

/-- C8: `renderProjects` writes the "No Projects Found" placeholder, which
differs from every "Error Loading Projects" placeholder, exactly when
`filteredProjects` is empty; otherwise it writes one card per project, joined
in the order of `filteredProjects`, which it leaves as it is.  For a category
that is not "all" and is no project's language, `applyFilter` leaves
`filteredProjects` empty and the grid shows the placeholder.  The card of a
project is the template of the script with the link, the escaped name, the
star and fork counts, the escaped description, the language colour, the
language and the date phrase in their places; the grid of a two-project list
is spelled out in full. -/
theorem renderProjects_spec (now : Int) (st : Page) :
    ((renderProjects now st).projectsGrid = noProjectsPlaceholder ↔ st.filteredProjects = []) ∧
    (∀ message, noProjectsPlaceholder ≠ errorPlaceholder message) ∧
    (st.filteredProjects ≠ [] →
      (renderProjects now st).projectsGrid
        = String.join (st.filteredProjects.map (projectCard now))) ∧
    (st.filteredProjects.map (projectCard now)).length = st.filteredProjects.length ∧
    (∀ i (h : i < st.filteredProjects.length),
      (st.filteredProjects.map (projectCard now))[i]? = some (projectCard now st.filteredProjects[i])) ∧
    (renderProjects now st).filteredProjects = st.filteredProjects ∧
    (∀ c, c ≠ "all" → (∀ p ∈ st.allProjects, p.language ≠ c) →
      (applyFilter now { st with currentFilter := c }).filteredProjects = [] ∧
      (applyFilter now { st with currentFilter := c }).projectsGrid = noProjectsPlaceholder) ∧
    (∀ p : Project, projectCard now p =
      "\n" ++
      "        <div class=\"project-card\" onclick=\"window.open(\x27" ++ p.url ++
      "\x27, \x27_blank\x27)\">\n" ++
      "            <div class=\"project-header\">\n" ++
      "                <div>\n" ++
      "                    <h3 class=\"project-name\">\n" ++
      "                        <a href=\"" ++ p.url ++
      "\" target=\"_blank\" onclick=\"event.stopPropagation()\">\n" ++
      "                            " ++ escapeHtml p.name ++
      "\n" ++
      "                        </a>\n" ++
      "                    </h3>\n" ++
      "                    <div class=\"project-stats\">\n" ++
      "                        <span><i class=\"fas fa-star\"></i> " ++ numberToString p.stars ++
      "</span>\n" ++
      "                        <span><i class=\"fas fa-code-branch\"></i> " ++
      numberToString p.forks ++
      "</span>\n" ++
      "                    </div>\n" ++
      "                </div>\n" ++
      "            </div>\n" ++
      "            <p class=\"project-description\">" ++ escapeHtml p.description ++
      "</p>\n" ++
      "            <div class=\"project-footer\">\n" ++
      "                <div class=\"project-language\">\n" ++
      "                    <span class=\"language-dot\" style=\"background-color: " ++
      (getLanguageColor p.language).toText ++
      "\"></span>\n" ++
      "                    <span>" ++ p.language ++
      "</span>\n" ++
      "                </div>\n" ++
      "                <div class=\"project-date\">\n" ++
      "                    Updated " ++ formatDate now p.updated ++
      "\n" ++
      "                </div>\n" ++
      "            </div>\n" ++
      "        </div>\n" ++
      "    ") ∧
    (renderProjects (19753 * 86400000)
        { pageOf [] "all" with
          filteredProjects := [showcaseProject, sampleProject 3 "Go"] }).projectsGrid =
        "\n" ++
        "        <div class=\"project-card\" onclick=\"window.open(\x27" ++
        "https://example.org/demo" ++
        "\x27, \x27_blank\x27)\">\n" ++
        "            <div class=\"project-header\">\n" ++
        "                <div>\n" ++
        "                    <h3 class=\"project-name\">\n" ++
        "                        <a href=\"" ++
        "https://example.org/demo" ++
        "\" target=\"_blank\" onclick=\"event.stopPropagation()\">\n" ++
        "                            " ++
        "a&lt;b&gt;&amp;c" ++
        "\n" ++
        "                        </a>\n" ++
        "                    </h3>\n" ++
        "                    <div class=\"project-stats\">\n" ++
        "                        <span><i class=\"fas fa-star\"></i> " ++
        "1234" ++
        "</span>\n" ++
        "                        <span><i class=\"fas fa-code-branch\"></i> " ++
        "5" ++
        "</span>\n" ++
        "                    </div>\n" ++
        "                </div>\n" ++
        "            </div>\n" ++
        "            <p class=\"project-description\">" ++
        "A demo" ++
        "</p>\n" ++
        "            <div class=\"project-footer\">\n" ++
        "                <div class=\"project-language\">\n" ++
        "                    <span class=\"language-dot\" style=\"background-color: " ++
        "#000000" ++
        "\"></span>\n" ++
        "                    <span>" ++
        "Rust" ++
        "</span>\n" ++
        "                </div>\n" ++
        "                <div class=\"project-date\">\n" ++
        "                    Updated " ++
        "1 weeks ago" ++
        "\n" ++
        "                </div>\n" ++
        "            </div>\n" ++
        "        </div>\n" ++
        "    " ++
        "\n" ++
        "        <div class=\"project-card\" onclick=\"window.open(\x27" ++
        "https://example.org/demo" ++
        "\x27, \x27_blank\x27)\">\n" ++
        "            <div class=\"project-header\">\n" ++
        "                <div>\n" ++
        "                    <h3 class=\"project-name\">\n" ++
        "                        <a href=\"" ++
        "https://example.org/demo" ++
        "\" target=\"_blank\" onclick=\"event.stopPropagation()\">\n" ++
        "                            " ++
        "demo" ++
        "\n" ++
        "                        </a>\n" ++
        "                    </h3>\n" ++
        "                    <div class=\"project-stats\">\n" ++
        "                        <span><i class=\"fas fa-star\"></i> " ++
        "3" ++
        "</span>\n" ++
        "                        <span><i class=\"fas fa-code-branch\"></i> " ++
        "0" ++
        "</span>\n" ++
        "                    </div>\n" ++
        "                </div>\n" ++
        "            </div>\n" ++
        "            <p class=\"project-description\">" ++
        "A demo" ++
        "</p>\n" ++
        "            <div class=\"project-footer\">\n" ++
        "                <div class=\"project-language\">\n" ++
        "                    <span class=\"language-dot\" style=\"background-color: " ++
        "#00ADD8" ++
        "\"></span>\n" ++
        "                    <span>" ++
        "Go" ++
        "</span>\n" ++
        "                </div>\n" ++
        "                <div class=\"project-date\">\n" ++
        "                    Updated " ++
        "54 years ago" ++
        "\n" ++
        "                </div>\n" ++
        "            </div>\n" ++
        "        </div>\n" ++
        "    " := by
  have hgrid : ∀ s : Page, s.filteredProjects = [] →
      (renderProjects now s).projectsGrid = noProjectsPlaceholder := by
    intro s hs
    simp [renderProjects, hs]
  refine ⟨⟨?_, hgrid st⟩, noProjectsPlaceholder_ne_error, ?_, by simp, ?_,
    (renderProjects_state now st).2.1, ?_, ?_, ?_⟩
  · intro h
    cases hf : st.filteredProjects with
    | nil => rfl
    | cons p ps =>
      exfalso
      simp only [renderProjects, hf, List.length_cons, Nat.add_one_ne_zero, if_false] at h
      exact join_cards_ne_placeholder now p ps h
  · intro hne
    have : st.filteredProjects.length ≠ 0 := fun h0 => hne (List.length_eq_zero.1 h0)
    simp [renderProjects, this]
  · intro i h
    simp [h]
  · intro c hc hnone
    have hf : (applyFilter now { st with currentFilter := c }).filteredProjects = [] := by
      rw [applyFilter_filtered]
      simp only [hc, if_false]
      rw [List.filter_eq_nil_iff]
      intro p hp
      simpa using hnone p hp
    refine ⟨hf, ?_⟩
    have hf' := hf
    rw [applyFilter_filtered] at hf'
    unfold applyFilter
    simp only [hc, if_false] at hf' ⊢
    exact hgrid _ hf'
  · intro p
    exact projectCard_text now p
  · have hg : (renderProjects (19753 * 86400000)
        { pageOf [] "all" with
          filteredProjects := [showcaseProject, sampleProject 3 "Go"] }).projectsGrid
        = String.join [projectCard (19753 * 86400000) showcaseProject,
            projectCard (19753 * 86400000) (sampleProject 3 "Go")] := by
      simp [renderProjects]
    have u1 : showcaseProject.url = "https://example.org/demo" := rfl
    have n1 : escapeHtml showcaseProject.name = "a&lt;b&gt;&amp;c" := by decide
    have s1 : numberToString showcaseProject.stars = "1234" := by decide
    have f1 : numberToString showcaseProject.forks = "5" := by decide
    have d1 : escapeHtml showcaseProject.description = "A demo" := by decide
    have c1 : (getLanguageColor "Rust").toText = "#000000" := by decide
    have l1 : showcaseProject.language = "Rust" := rfl
    have t1 : formatDate (19753 * 86400000) showcaseProject.updated = "1 weeks ago" := by decide
    have u2 : (sampleProject 3 "Go").url = "https://example.org/demo" := rfl
    have n2 : escapeHtml (sampleProject 3 "Go").name = "demo" := by decide
    have s2 : numberToString (sampleProject 3 "Go").stars = "3" := by decide
    have f2 : numberToString (sampleProject 3 "Go").forks = "0" := by decide
    have d2 : escapeHtml (sampleProject 3 "Go").description = "A demo" := by decide
    have c2 : (getLanguageColor "Go").toText = "#00ADD8" := by decide
    have l2 : (sampleProject 3 "Go").language = "Go" := rfl
    have t2 : formatDate (19753 * 86400000) (sampleProject 3 "Go").updated = "54 years ago" := by
      decide
    rw [hg]
    simp only [String.join, List.foldl, projectCard_text, u1, n1, s1, f1, d1, c1, l1, t1,
      u2, n2, s2, f2, d2, c2, l2, t2, String.append_assoc, String.empty_append]

/-- The instances of C8 at a page with two filtered projects, where the grid
is the two cards in order, and at the category "Zig" on a page of a Go and a
Rust project, where the grid is the placeholder. -/
theorem renderProjects_spec_witness :
    (({ pageOf [] "all" with
        filteredProjects := [sampleProject 1 "Go", sampleProject 2 "Rust"] } : Page).filteredProjects
      ≠ [] ∧
     (renderProjects 0 { pageOf [] "all" with
        filteredProjects := [sampleProject 1 "Go", sampleProject 2 "Rust"] }).projectsGrid
      = String.join [projectCard 0 (sampleProject 1 "Go"), projectCard 0 (sampleProject 2 "Rust")]) ∧
    ("Zig" ≠ "all" ∧
     (∀ p ∈ (pageOf [sampleProject 1 "Go", sampleProject 2 "Rust"] "all").allProjects,
        p.language ≠ "Zig") ∧
     (applyFilter 0 { pageOf [sampleProject 1 "Go", sampleProject 2 "Rust"] "all" with
        currentFilter := "Zig" }).filteredProjects = [] ∧
     (applyFilter 0 { pageOf [sampleProject 1 "Go", sampleProject 2 "Rust"] "all" with
        currentFilter := "Zig" }).projectsGrid = noProjectsPlaceholder) :=
  ⟨⟨by decide,
    (renderProjects_spec 0 { pageOf [] "all" with
        filteredProjects := [sampleProject 1 "Go", sampleProject 2 "Rust"] }).2.2.1 (by decide)⟩,
   ⟨by decide, by decide,
    (renderProjects_spec 0 (pageOf [sampleProject 1 "Go", sampleProject 2 "Rust"] "all")).2.2.2.2.2.2.1
      "Zig" (by decide) (by decide)⟩⟩

/-- C4 fails on the code at a project whose language and link carry markup:
the card interpolates `project.language` and `project.url` as they are, not
through `escapeHtml`, so the markup of the language reaches the output raw,
while the same text as a name is escaped. -/
theorem projectCard_unescaped_fields :
    Sum.inr markupProject.language ∈ cardPieces 0 markupProject ∧
    Sum.inr markupProject.url ∈ cardPieces 0 markupProject ∧
    Sum.inr (escapeHtml markupProject.language) ∉ cardPieces 0 markupProject ∧
    "<img src=x onerror=alert(1)>".data <:+: (projectCard 0 markupProject).data ∧
    "\x27);alert(1);(\x27".data <:+: (projectCard 0 markupProject).data ∧
    escapeHtml markupProject.language = "&lt;img src=x onerror=alert(1)&gt;" ∧
    Sum.inr (escapeHtml "<img src=x onerror=alert(1)>")
      ∈ cardPieces 0 { markupProject with name := "<img src=x onerror=alert(1)>" } := by
  have h1 : Sum.inr markupProject.language ∈ cardPieces 0 markupProject := by
    simp [cardPieces]
  have h2 : Sum.inr markupProject.url ∈ cardPieces 0 markupProject := by
    simp [cardPieces]
  refine ⟨h1, h2, ?_, piece_infix_card 0 markupProject _ h1, piece_infix_card 0 markupProject _ h2,
    by decide, by simp [cardPieces]⟩
  simp only [cardPieces, List.mem_cons, Sum.inr.injEq, List.mem_singleton, not_or,
    List.not_mem_nil, not_false_eq_true, and_true, reduceCtorEq]
  decide

end Catalog
